import Mathlib

/-!
Verification of the intellitask session/role bootstrap and optimistic
task-status transition core.

The definitions below are a shallow embedding of the TypeScript source:

* `AuthState`, `processEvent`, `logOut` embed the `AuthProvider` component
  (the `useState` fields `user`, `idToken`, `role`, `loading`, the
  `onAuthStateChanged` callback, and the `logOut` function).  The callback
  body suspends at each `await`; between suspensions its `setState` calls
  are batched into one observable publish, so an event is embedded as the
  list of observable states it publishes, in order, plus the list of
  provider/backend calls it issues.
* `fetchFromApiCredential` embeds the authentication prelude of
  `fetchFromApi` in the API client (the `auth.currentUser` guard and the
  `getIdToken` call).
* `Task`, `EngineState`, `fetchTasks`, `handleDragEnd` embed the
  `DeveloperDashboard` component: the `tasks` cache, `fetchTasks`, and the
  `handleDragEnd` drag handler with its optimistic update, its status PUT
  and its refetch-on-failure.  The handler is embedded as a function from
  the pre-state, the drag event and the outcomes of the two possible
  network calls to a `DragEndTrace` recording the cache contents at the
  moment the PUT is issued (before any response arrives), the calls issued,
  the in-flight pending-transition record, and the settled final state.
-/

namespace IntelliTask

/-- An identity-provider principal: an opaque uid together with the token
that `getIdToken` returns for it. -/
structure FirebaseUser where
  uid : String
  token : String
  deriving DecidableEq, Repr

/-- The observable state of the `AuthProvider` component: its four
`useState` fields, plus the provider-level `auth.currentUser` that the API
client consults. -/
structure AuthState where
  user : Option FirebaseUser
  idToken : Option String
  role : Option String
  loading : Bool
  currentUser : Option FirebaseUser
  deriving DecidableEq, Repr

/-- The initial component state: `useState(null)` three times and
`useState(true)` for `loading`; no provider user yet. -/
def initialAuthState : AuthState :=
  { user := none, idToken := none, role := none, loading := true, currentUser := none }

/-- Calls the auth subsystem issues to the provider or the backend. -/
inductive AuthCall
  | getIdToken (uid : String)
  | roleLookup
  | signOutCall
  deriving DecidableEq, Repr

/-- An auth-state change delivered by the provider subscription.  A
logged-in event carries the principal, whether `getIdToken` resolves,
the result of the `/users/me` role lookup (`none` = the call failed), and
whether the provider `signOut` issued on a role-lookup failure resolves. -/
inductive AuthEvent
  | loggedIn (u : FirebaseUser) (tokenOk : Bool) (roleResult : Option String) (signOutOk : Bool)
  | loggedOut
  deriving DecidableEq, Repr

/-- The `logOut` function of `AuthProvider`: `await signOut(auth)` and, only
when that call resolves, clear `user`, `idToken` and `role` (the clearing
statements sit inside the `try` block after the `await`, so a rejected
provider call skips them and only logs). -/
def logOut (s : AuthState) (signOutOk : Bool) : AuthState :=
  if signOutOk then
    { s with user := none, idToken := none, role := none, currentUser := none }
  else
    s

/-- The observable effect of handling one subscription event: the published
states in order (the last one is the settled state) and the calls issued. -/
structure EventTrace where
  states : List AuthState
  final : AuthState
  calls : List AuthCall
  deriving DecidableEq, Repr

/-- The `onAuthStateChanged` callback.  Logged-in branch:
`setLoading(true); setUser(u)` publish together, then the callback suspends
at `getIdToken`; if that rejects the callback aborts (loading stays true).
Otherwise `setIdToken` publishes and the callback suspends at the
`/users/me` role lookup.  On success `setRole` and `setLoading(false)`
publish together.  On failure it runs `await logOut()` — clearing state only
when the provider `signOut` resolves — and then `setLoading(false)`.
Logged-out branch: all setters run synchronously and publish once. -/
def processEvent (s : AuthState) (e : AuthEvent) : EventTrace :=
  match e with
  | .loggedIn u tokenOk roleResult signOutOk =>
    let s1 : AuthState := { s with loading := true, user := some u, currentUser := some u }
    if tokenOk then
      let s2 : AuthState := { s1 with idToken := some u.token }
      match roleResult with
      | some r =>
        let s3 : AuthState := { s2 with role := some r, loading := false }
        { states := [s1, s2, s3], final := s3, calls := [.getIdToken u.uid, .roleLookup] }
      | none =>
        if signOutOk then
          let s3 : AuthState :=
            { s2 with user := none, idToken := none, role := none, currentUser := none }
          let s4 : AuthState := { s3 with loading := false }
          { states := [s1, s2, s3, s4], final := s4,
            calls := [.getIdToken u.uid, .roleLookup, .signOutCall] }
        else
          let s4 : AuthState := { s2 with loading := false }
          { states := [s1, s2, s4], final := s4,
            calls := [.getIdToken u.uid, .roleLookup, .signOutCall] }
    else
      { states := [s1], final := s1, calls := [.getIdToken u.uid] }
  | .loggedOut =>
    let s1 : AuthState :=
      { user := none, idToken := none, role := none, loading := false, currentUser := none }
    { states := [s1], final := s1, calls := [] }

/-- A session operation: either a subscription event or an explicit call of
`logOut` from the UI (with the fate of its provider `signOut` call). -/
inductive SessionOp
  | authEvent (e : AuthEvent)
  | logOutOp (signOutOk : Bool)
  deriving DecidableEq, Repr

/-- Observable trace of one session operation. -/
def opTrace (s : AuthState) (op : SessionOp) : EventTrace :=
  match op with
  | .authEvent e => processEvent s e
  | .logOutOp ok => { states := [logOut s ok], final := logOut s ok, calls := [.signOutCall] }

/-- All observable states produced by a sequence of session operations,
each handled to completion before the next (single-threaded event loop). -/
def runOps (s : AuthState) : List SessionOp → List AuthState
  | [] => []
  | op :: rest => (opTrace s op).states ++ runOps (opTrace s op).final rest

/-- The observable states of a whole session starting from the initial
component state. -/
def observableStates (ops : List SessionOp) : List AuthState :=
  initialAuthState :: runOps initialAuthState ops

/-- The phases of the specification, derived from the observable fields of
the component state (the source stores no phase field). -/
inductive Phase
  | initializing
  | authenticating
  | ready
  | unauthenticated
  | indeterminate
  deriving DecidableEq, Repr

/-- Derived phase: loading with no user is the initial bootstrap, loading
with a user is authenticating; settled with no user is unauthenticated;
settled with user and role is ready; settled with a user but no role has no
spec phase and is marked indeterminate. -/
def phaseOf (s : AuthState) : Phase :=
  if s.loading then
    match s.user with
    | none => .initializing
    | some _ => .authenticating
  else
    match s.user, s.role with
    | none, _ => .unauthenticated
    | some _, some _ => .ready
    | some _, none => .indeterminate

/-- True unless the operation is a logged-in event whose role lookup fails
and whose forced-logout provider `signOut` call also fails. -/
def forcedSignOutOk : SessionOp → Bool
  | .authEvent (.loggedIn _ _ none sOk) => sOk
  | _ => true

/-- The authentication prelude of `fetchFromApi` in the API client: reject
with the no-authenticated-user error when `auth.currentUser` is null,
otherwise return the token `getIdToken` yields for the current user. -/
def fetchFromApiCredential (currentUser : Option FirebaseUser) : Except String String :=
  match currentUser with
  | none => .error "No authenticated user found."
  | some u => .ok u.token

/-- A task as cached client-side by the dashboard. -/
structure Task where
  taskId : String
  projectId : String
  title : String
  description : String
  status : String
  priority : String
  deriving DecidableEq, Repr

/-- The fixed status enumeration of the board columns. -/
def TASK_STATUSES : List String := ["To-Do", "In Progress", "In Review", "Done"]

/-- The observable state of the `DeveloperDashboard` component that the
engine claims concern: the `tasks` cache, the drag overlay task, the
loading flag and the error banner. -/
structure EngineState where
  tasks : List Task
  activeTask : Option Task
  loading : Bool
  error : Option String
  deriving DecidableEq, Repr

/-- The settled state of `fetchTasks`: `setLoading(true); setError(null)`,
then the GET of the task list; on success `setTasks(taskData)`, on failure
`setError` with the fetch-failure banner text; `finally setLoading(false)`.
The argument is the outcome of the GET (`none` = the call failed). -/
def fetchTasks (s : EngineState) (result : Option (List Task)) : EngineState :=
  match result with
  | some taskData => { s with tasks := taskData, error := none, loading := false }
  | none => { s with error := some "Failed to fetch tasks.", loading := false }

/-- A drag-end event as delivered to `handleDragEnd`: the dragged task id
(`active.id`) and the drop target column id (`over`, absent when the card
was dropped outside every column). -/
structure DragEndEvent where
  activeId : String
  over : Option String
  deriving DecidableEq, Repr

/-- The pending-transition record of the specification.  The source keeps
no explicit data structure for it: the record is exactly the in-flight
status PUT together with the locals the handler captured (`taskId`, the
found task's previous status, and the target status); it exists from the
optimistic mutation until the `await` of the PUT settles. -/
structure PendingTransition where
  taskId : String
  previousStatus : String
  targetStatus : String
  deriving DecidableEq, Repr

/-- Backend calls the engine issues. -/
inductive EngineCall
  | putStatus (taskId : String) (status : String)
  | getTasks
  deriving DecidableEq, Repr

/-- Observable trace of one `handleDragEnd` run: the cache contents at the
instant the status PUT is issued (before any network response is observed;
`none` when no PUT is issued), the in-flight pending transition while the
PUT is outstanding, the pending transition surviving after settlement (the
handler holds no record beyond the `await`, so construction makes it none
on every path), the backend calls issued in order, and the settled state. -/
structure DragEndTrace where
  cacheAtPut : Option (List Task)
  pendingDuringFlight : Option PendingTransition
  pendingAfterSettle : Option PendingTransition
  calls : List EngineCall
  final : EngineState
  deriving DecidableEq, Repr

/-- The `handleDragEnd` handler.  `setActiveTask(null)`; return when there
is no drop target; find the dragged task in the cache and return when it is
absent or already has the target status; otherwise optimistically map the
cache, issue the status PUT, and on a rejected PUT invoke `fetchTasks` to
resynchronize (`putOk` is the fate of the PUT and `refetchResult` the
outcome of that refetch, consulted only on the paths that reach them). -/
def handleDragEnd (s : EngineState) (ev : DragEndEvent) (putOk : Bool)
    (refetchResult : Option (List Task)) : DragEndTrace :=
  match ev.over with
  | none =>
    { cacheAtPut := none, pendingDuringFlight := none, pendingAfterSettle := none,
      calls := [], final := { s with activeTask := none } }
  | some newStatus =>
    match s.tasks.find? (fun t => t.taskId == ev.activeId) with
    | none =>
      { cacheAtPut := none, pendingDuringFlight := none, pendingAfterSettle := none,
        calls := [], final := { s with activeTask := none } }
    | some currentTask =>
      if currentTask.status == newStatus then
        { cacheAtPut := none, pendingDuringFlight := none, pendingAfterSettle := none,
          calls := [], final := { s with activeTask := none } }
      else
        let tasks1 : List Task :=
          s.tasks.map (fun t => if t.taskId == ev.activeId then { t with status := newStatus } else t)
        let s1 : EngineState := { s with activeTask := none, tasks := tasks1 }
        if putOk then
          { cacheAtPut := some tasks1,
            pendingDuringFlight := some ⟨ev.activeId, currentTask.status, newStatus⟩,
            pendingAfterSettle := none,
            calls := [.putStatus ev.activeId newStatus], final := s1 }
        else
          { cacheAtPut := some tasks1,
            pendingDuringFlight := some ⟨ev.activeId, currentTask.status, newStatus⟩,
            pendingAfterSettle := none,
            calls := [.putStatus ev.activeId newStatus, .getTasks],
            final := fetchTasks s1 refetchResult }

/-- The settled state of an operation is among its observable states. -/
lemma opTrace_final_mem (s : AuthState) (op : SessionOp) :
    (opTrace s op).final ∈ (opTrace s op).states := by
  cases op with
  | authEvent e =>
    cases e with
    | loggedIn u tokenOk roleResult signOutOk =>
      cases tokenOk <;> cases roleResult <;> cases signOutOk <;>
        simp [opTrace, processEvent]
    | loggedOut => simp [opTrace, processEvent]
  | logOutOp ok => simp [opTrace]

/-- Every observable state of an operation either is the pre-state, or has
a user, or has no role. -/
lemma opTrace_user_cases (s : AuthState) (op : SessionOp) :
    ∀ x ∈ (opTrace s op).states, x = s ∨ x.user ≠ none ∨ x.role = none := by
  cases op with
  | authEvent e =>
    cases e with
    | loggedIn u tokenOk roleResult signOutOk =>
      cases tokenOk <;> cases roleResult <;> cases signOutOk <;>
        simp [opTrace, processEvent]
    | loggedOut => simp [opTrace, processEvent]
  | logOutOp ok => cases ok <;> simp [opTrace, logOut]

/-- When a forced-logout provider call cannot fail, every observable state
of an operation is the pre-state, or is still loading, or has no user, or
has a resolved role. -/
lemma opTrace_ready_cases (s : AuthState) (op : SessionOp)
    (h : forcedSignOutOk op = true) :
    ∀ x ∈ (opTrace s op).states,
      x = s ∨ x.loading = true ∨ x.user = none ∨ x.role ≠ none := by
  cases op with
  | authEvent e =>
    cases e with
    | loggedIn u tokenOk roleResult signOutOk =>
      cases tokenOk <;> cases roleResult <;> cases signOutOk <;>
        simp_all [opTrace, processEvent, forcedSignOutOk]
    | loggedOut => simp [opTrace, processEvent]
  | logOutOp ok => cases ok <;> simp [opTrace, logOut]

/-- A state predicate preserved across every observable state of every
operation satisfying a side condition holds along any run. -/
lemma runOps_inv (I : AuthState → Prop) (P : SessionOp → Bool)
    (hstep : ∀ s op, P op = true → I s → ∀ x ∈ (opTrace s op).states, I x) :
    ∀ (ops : List SessionOp), (∀ op ∈ ops, P op = true) → ∀ (s : AuthState),
      I s → ∀ x ∈ runOps s ops, I x := by
  intro ops
  induction ops with
  | nil =>
    intro _ s _ x hx
    simp [runOps] at hx
  | cons op rest ih =>
    intro hP s hI x hx
    have hop : P op = true := hP op (List.mem_cons_self op rest)
    have hstates := hstep s op hop hI
    simp only [runOps] at hx
    rcases List.mem_append.mp hx with hmem | hmem
    · exact hstates x hmem
    · exact ih (fun o ho => hP o (List.mem_cons_of_mem op ho)) (opTrace s op).final
        (hstates _ (opTrace_final_mem s op)) x hmem

/-- Claim C1: along every sequence of identity-provider auth events and
session operations, no observable session state has a non-null role with a
null identity; and — provided the provider signOut call issued on each
forced logout succeeds — no observable state presents loading=false with
identity set while the role is still unresolved. -/
theorem session_role_identity_invariant (ops : List SessionOp) :
    (∀ s ∈ observableStates ops, s.role ≠ none → s.user ≠ none) ∧
    ((∀ op ∈ ops, forcedSignOutOk op = true) →
      ∀ s ∈ observableStates ops, s.loading = false → s.user ≠ none →
        s.role ≠ none) := by
  constructor
  · intro x hx
    rcases List.mem_cons.mp hx with rfl | hx
    · simp [initialAuthState]
    · refine runOps_inv (fun s => s.role ≠ none → s.user ≠ none) (fun _ => true)
        ?_ ops (by simp) initialAuthState (by simp [initialAuthState]) x hx
      intro s op _ hI y hy
      rcases opTrace_user_cases s op y hy with rfl | h | h
      · exact hI
      · exact fun _ => h
      · exact fun hr => absurd h hr
  · intro hforced x hx
    rcases List.mem_cons.mp hx with rfl | hx
    · simp [initialAuthState]
    · refine runOps_inv (fun s => s.loading = false → s.user ≠ none → s.role ≠ none)
        forcedSignOutOk ?_ ops hforced initialAuthState (by simp [initialAuthState]) x hx
      intro s op hop hI y hy
      rcases opTrace_ready_cases s op hop y hy with rfl | h | h | h
      · exact hI
      · intro hl
        rw [h] at hl
        exact absurd hl (by simp)
      · intro _ hu
        exact absurd h hu
      · exact fun _ _ => h

/-- Witness for C1: a successful login run reaches a settled state whose
role is resolved. -/
theorem session_role_identity_invariant_witness :
    (⟨some ⟨"u1", "t1"⟩, some "t1", some "admin", false, some ⟨"u1", "t1"⟩⟩ :
      AuthState).role ≠ none :=
  (session_role_identity_invariant
      [.authEvent (.loggedIn ⟨"u1", "t1"⟩ true (some "admin") true)]).2
    (by decide) _ (by decide) (by decide) (by decide)

/-- Counterexample to C1 as stated: when the role lookup of a first login
fails and the forced-logout provider signOut call also fails, the session
settles (loading=false) with identity set and role still null. -/
theorem session_role_identity_cx :
    (⟨some ⟨"u1", "t1"⟩, some "t1", none, false, some ⟨"u1", "t1"⟩⟩ : AuthState) ∈
      observableStates [.authEvent (.loggedIn ⟨"u1", "t1"⟩ true none false)] ∧
    (⟨some ⟨"u1", "t1"⟩, some "t1", none, false, some ⟨"u1", "t1"⟩⟩ :
      AuthState).loading = false ∧
    (⟨some ⟨"u1", "t1"⟩, some "t1", none, false, some ⟨"u1", "t1"⟩⟩ :
      AuthState).user ≠ none ∧
    (⟨some ⟨"u1", "t1"⟩, some "t1", none, false, some ⟨"u1", "t1"⟩⟩ :
      AuthState).role = none := by
  decide

/-- Claim C2 (amended): from any prior state, a logged-in event whose role
lookup fails and whose forced-logout provider signOut call succeeds settles
with identity, credential and role cleared and phase unauthenticated, and
its call list shows one role lookup and no retry. -/
theorem role_lookup_failure_forces_logout (s : AuthState) (u : FirebaseUser) :
    (processEvent s (.loggedIn u true none true)).final =
      { user := none, idToken := none, role := none, loading := false,
        currentUser := none } ∧
    phaseOf (processEvent s (.loggedIn u true none true)).final = .unauthenticated ∧
    (processEvent s (.loggedIn u true none true)).calls =
      [.getIdToken u.uid, .roleLookup, .signOutCall] :=
  ⟨rfl, rfl, rfl⟩

/-- Counterexample to C2 as stated: when the forced-logout provider signOut
call fails, the session settles with identity still set. -/
theorem role_lookup_failure_cx :
    (processEvent initialAuthState (.loggedIn ⟨"u1", "t1"⟩ true none false)).final.user =
      some ⟨"u1", "t1"⟩ ∧
    (processEvent initialAuthState
      (.loggedIn ⟨"u1", "t1"⟩ true none false)).final.loading = false :=
  ⟨rfl, rfl⟩

/-- Claim C7 (amended): the explicit logOut path clears identity,
credential and role when the provider signOut call succeeds; the
subscription logged-out branch always settles in the fully cleared
unauthenticated state; when the provider call fails, the explicit path
leaves the session state unchanged. -/
theorem logOut_clears_state (s : AuthState) :
    (logOut s true).user = none ∧ (logOut s true).idToken = none ∧
    (logOut s true).role = none ∧ (logOut s true).currentUser = none ∧
    (processEvent s .loggedOut).final =
      { user := none, idToken := none, role := none, loading := false,
        currentUser := none } ∧
    logOut s false = s :=
  ⟨rfl, rfl, rfl, rfl, rfl, rfl⟩

/-- Counterexample to C7 as stated: after a successful login, an explicit
signOut whose provider call fails partway leaves identity and role set
rather than the cleared state the claim promises for either path alone. -/
theorem logOut_cx :
    ((runOps initialAuthState
        [.authEvent (.loggedIn ⟨"u1", "t1"⟩ true (some "developer") true),
         .logOutOp false]).getLastD initialAuthState).user = some ⟨"u1", "t1"⟩ ∧
    ((runOps initialAuthState
        [.authEvent (.loggedIn ⟨"u1", "t1"⟩ true (some "developer") true),
         .logOutOp false]).getLastD initialAuthState).role = some "developer" := by
  decide

/-- Claim C9 (amended): the credential lookup of fetchFromApi succeeds
exactly when the identity provider reports a current user — that is, in
every phase other than initializing and unauthenticated, not exactly in
the ready phase. -/
theorem fetchFromApiCredential_spec (s : AuthState) (h : s.user = s.currentUser) :
    (∃ t, fetchFromApiCredential s.currentUser = .ok t) ↔
      (phaseOf s ≠ .initializing ∧ phaseOf s ≠ .unauthenticated) := by
  rcases s with ⟨user, idToken, role, loading, currentUser⟩
  simp only at h
  subst h
  cases user with
  | none => cases loading <;> simp [fetchFromApiCredential, phaseOf]
  | some u => cases loading <;> cases role <;> simp [fetchFromApiCredential, phaseOf]

/-- Witness for C9: a state mid-bootstrap satisfies the identity-matching
hypothesis and the lookup succeeding there shows the phase is neither
initializing nor unauthenticated. -/
theorem fetchFromApiCredential_spec_witness :
    phaseOf ⟨some ⟨"u1", "t1"⟩, none, none, true, some ⟨"u1", "t1"⟩⟩ ≠ .initializing ∧
    phaseOf ⟨some ⟨"u1", "t1"⟩, none, none, true, some ⟨"u1", "t1"⟩⟩ ≠ .unauthenticated :=
  (fetchFromApiCredential_spec
      ⟨some ⟨"u1", "t1"⟩, none, none, true, some ⟨"u1", "t1"⟩⟩ rfl).mp
    ⟨"t1", rfl⟩

/-- Counterexample to C9 as stated: a reachable observable state of the
login bootstrap is in the authenticating phase, not ready, yet the
credential lookup succeeds there (the bootstrap role lookup itself relies
on this). -/
theorem fetchFromApiCredential_cx :
    (⟨some ⟨"u1", "t1"⟩, none, none, true, some ⟨"u1", "t1"⟩⟩ : AuthState) ∈
      observableStates
        [.authEvent (.loggedIn ⟨"u1", "t1"⟩ true (some "developer") true)] ∧
    phaseOf ⟨some ⟨"u1", "t1"⟩, none, none, true, some ⟨"u1", "t1"⟩⟩ ≠ .ready ∧
    fetchFromApiCredential (some ⟨"u1", "t1"⟩) = .ok "t1" :=
  ⟨by decide, by decide, rfl⟩

/-- Mapping the status update over the cache moves the task that find?
located to the target status, at the same position. -/
lemma find?_map_setStatus (l : List Task) (id st : String) (t : Task)
    (h : l.find? (fun x => x.taskId == id) = some t) :
    (l.map (fun x => if x.taskId == id then { x with status := st } else x)).find?
      (fun x => x.taskId == id) = some { t with status := st } := by
  induction l with
  | nil => simp [List.find?] at h
  | cons a l ih =>
    simp only [List.map_cons]
    by_cases ha : (a.taskId == id) = true
    · simp only [List.find?_cons, ha, Option.some.injEq] at h
      subst h
      simp [List.find?_cons, ha]
    · have haf : (a.taskId == id) = false := by simpa using ha
      simp only [List.find?_cons, haf] at h
      rw [if_neg ha]
      simp only [List.find?_cons, haf]
      exact ih h

/-- Claim C3: when the dragged task exists in the cache and the drop target
differs from its status, the handler publishes the optimistically updated
cache at the instant the status PUT is issued — the located task already
carries the target status there — and that pre-response cache does not
depend on the network outcomes. -/
theorem handleDragEnd_optimistic_update (s : EngineState) (ev : DragEndEvent)
    (S : String) (t : Task) (putOk putOk' : Bool) (r r' : Option (List Task))
    (hov : ev.over = some S)
    (hfind : s.tasks.find? (fun x => x.taskId == ev.activeId) = some t)
    (hne : t.status ≠ S) :
    (handleDragEnd s ev putOk r).cacheAtPut =
      some (s.tasks.map
        (fun x => if x.taskId == ev.activeId then { x with status := S } else x)) ∧
    ((handleDragEnd s ev putOk r).cacheAtPut.getD []).find?
      (fun x => x.taskId == ev.activeId) = some { t with status := S } ∧
    (handleDragEnd s ev putOk r).cacheAtPut =
      (handleDragEnd s ev putOk' r').cacheAtPut := by
  have hbeq : (t.status == S) = false := by simpa using hne
  have hmap := find?_map_setStatus s.tasks ev.activeId S t hfind
  have hred : ∀ (p : Bool) (q : Option (List Task)),
      (handleDragEnd s ev p q).cacheAtPut =
        some (s.tasks.map
          (fun x => if x.taskId == ev.activeId then { x with status := S } else x)) := by
    intro p q
    cases p <;> simp [handleDragEnd, hov, hfind, hbeq]
  refine ⟨hred putOk r, ?_, (hred putOk r).trans (hred putOk' r').symm⟩
  rw [hred putOk r, Option.getD_some]
  exact hmap

/-- Witness for C3: moving the To-Do task t1 to In Progress publishes the
In Progress status in the cache at the moment the PUT is issued. -/
theorem handleDragEnd_optimistic_update_witness :
    (handleDragEnd ⟨[⟨"t1", "p1", "Title", "Desc", "To-Do", "Low"⟩], none, false, none⟩
        ⟨"t1", some "In Progress"⟩ true none).cacheAtPut =
      some [⟨"t1", "p1", "Title", "Desc", "In Progress", "Low"⟩] := by
  have h := handleDragEnd_optimistic_update
    ⟨[⟨"t1", "p1", "Title", "Desc", "To-Do", "Low"⟩], none, false, none⟩
    ⟨"t1", some "In Progress"⟩ "In Progress"
    ⟨"t1", "p1", "Title", "Desc", "To-Do", "Low"⟩ true true none none
    rfl (by decide) (by decide)
  exact h.1.trans (by decide)

/-- Claim C4: when the status PUT fails, the handler issues the PUT and then
the full refetch, and — the refetch succeeding — the settled cache equals
exactly the task list the backend returned, whatever it is. -/
theorem handleDragEnd_failure_resync (s : EngineState) (ev : DragEndEvent)
    (S : String) (t : Task) (backendTasks : List Task)
    (hov : ev.over = some S)
    (hfind : s.tasks.find? (fun x => x.taskId == ev.activeId) = some t)
    (hne : t.status ≠ S) :
    (handleDragEnd s ev false (some backendTasks)).calls =
      [.putStatus ev.activeId S, .getTasks] ∧
    (handleDragEnd s ev false (some backendTasks)).final.tasks = backendTasks := by
  have hbeq : (t.status == S) = false := by simpa using hne
  simp [handleDragEnd, hov, hfind, hbeq, fetchTasks]

/-- Witness for C4: the PUT of t1 to In Progress fails and the backend now
reports In Review; the settled cache is In Review, neither the previous nor
the attempted status. -/
theorem handleDragEnd_failure_resync_witness :
    (handleDragEnd ⟨[⟨"t1", "p1", "Title", "Desc", "To-Do", "Low"⟩], none, false, none⟩
        ⟨"t1", some "In Progress"⟩ false
        (some [⟨"t1", "p1", "Title", "Desc", "In Review", "Low"⟩])).final.tasks =
      [⟨"t1", "p1", "Title", "Desc", "In Review", "Low"⟩] :=
  (handleDragEnd_failure_resync
    ⟨[⟨"t1", "p1", "Title", "Desc", "To-Do", "Low"⟩], none, false, none⟩
    ⟨"t1", some "In Progress"⟩ "In Progress"
    ⟨"t1", "p1", "Title", "Desc", "To-Do", "Low"⟩
    [⟨"t1", "p1", "Title", "Desc", "In Review", "Low"⟩]
    rfl (by decide) (by decide)).2

/-- Claim C5: a transition passing the preconditions records the pending
transition (taskId, previous status, target status) for exactly the flight
of the PUT; no pending record survives settlement, and on success the
settled cache is the optimistic cache itself — no further local mutation. -/
theorem handleDragEnd_pending_lifecycle (s : EngineState) (ev : DragEndEvent)
    (S : String) (t : Task) (putOk : Bool) (r : Option (List Task))
    (hov : ev.over = some S)
    (hfind : s.tasks.find? (fun x => x.taskId == ev.activeId) = some t)
    (hne : t.status ≠ S) :
    (handleDragEnd s ev putOk r).pendingDuringFlight =
      some ⟨ev.activeId, t.status, S⟩ ∧
    (handleDragEnd s ev putOk r).pendingAfterSettle = none ∧
    (putOk = true → (handleDragEnd s ev putOk r).final.tasks =
      (handleDragEnd s ev putOk r).cacheAtPut.getD []) := by
  have hbeq : (t.status == S) = false := by simpa using hne
  cases putOk <;> simp [handleDragEnd, hov, hfind, hbeq]

/-- Witness for C5: the specification scenario — t1 at To-Do moved to Done
with a succeeding PUT — settles at Done with no pending transition left. -/
theorem handleDragEnd_pending_lifecycle_witness :
    (handleDragEnd ⟨[⟨"t1", "p1", "Title", "Desc", "To-Do", "Low"⟩], none, false, none⟩
        ⟨"t1", some "Done"⟩ true none).pendingAfterSettle = none ∧
    (handleDragEnd ⟨[⟨"t1", "p1", "Title", "Desc", "To-Do", "Low"⟩], none, false, none⟩
        ⟨"t1", some "Done"⟩ true none).final.tasks =
      [⟨"t1", "p1", "Title", "Desc", "Done", "Low"⟩] := by
  have h := handleDragEnd_pending_lifecycle
    ⟨[⟨"t1", "p1", "Title", "Desc", "To-Do", "Low"⟩], none, false, none⟩
    ⟨"t1", some "Done"⟩ "Done" ⟨"t1", "p1", "Title", "Desc", "To-Do", "Low"⟩
    true none rfl (by decide) (by decide)
  exact ⟨h.2.1, (h.2.2 rfl).trans (by decide)⟩

/-- Claim C6: dropping a task onto the column it already occupies is a
no-op — no backend call, no pending transition, cache unchanged, normal
return. -/
theorem handleDragEnd_same_status_noop (s : EngineState) (ev : DragEndEvent)
    (S : String) (t : Task) (putOk : Bool) (r : Option (List Task))
    (hov : ev.over = some S)
    (hfind : s.tasks.find? (fun x => x.taskId == ev.activeId) = some t)
    (heq : t.status = S) :
    handleDragEnd s ev putOk r =
      { cacheAtPut := none, pendingDuringFlight := none, pendingAfterSettle := none,
        calls := [], final := { s with activeTask := none } } := by
  have hbeq : (t.status == S) = true := by simpa using heq
  simp [handleDragEnd, hov, hfind, hbeq]

/-- Witness for C6: dropping In Progress task t1 onto the In Progress
column leaves the trace empty and the state untouched. -/
theorem handleDragEnd_same_status_noop_witness :
    handleDragEnd
        ⟨[⟨"t1", "p1", "Title", "Desc", "In Progress", "Low"⟩], none, false, none⟩
        ⟨"t1", some "In Progress"⟩ true none =
      ⟨none, none, none, [],
        ⟨[⟨"t1", "p1", "Title", "Desc", "In Progress", "Low"⟩], none, false, none⟩⟩ :=
  handleDragEnd_same_status_noop
    ⟨[⟨"t1", "p1", "Title", "Desc", "In Progress", "Low"⟩], none, false, none⟩
    ⟨"t1", some "In Progress"⟩ "In Progress"
    ⟨"t1", "p1", "Title", "Desc", "In Progress", "Low"⟩ true none
    rfl (by decide) rfl

/-- Claim C8: a failed load leaves every cached task untouched, keeps the
overlay task, surfaces the fetch-failure banner, and ends loading. -/
theorem fetchTasks_failure_frame (s : EngineState) :
    (fetchTasks s none).tasks = s.tasks ∧
    (fetchTasks s none).activeTask = s.activeTask ∧
    (fetchTasks s none).error = some "Failed to fetch tasks." ∧
    (fetchTasks s none).loading = false :=
  ⟨rfl, rfl, rfl, rfl⟩

/-- Claim C10: a drag-end with no drop target or with a task id absent from
the cache is a total no-op: the handler returns normally with no backend
call, no pending transition and an unchanged task cache. -/
theorem handleDragEnd_missing_noop (s : EngineState) (ev : DragEndEvent)
    (putOk : Bool) (r : Option (List Task))
    (h : ev.over = none ∨
      s.tasks.find? (fun t => t.taskId == ev.activeId) = none) :
    handleDragEnd s ev putOk r =
      { cacheAtPut := none, pendingDuringFlight := none, pendingAfterSettle := none,
        calls := [], final := { s with activeTask := none } } := by
  rcases h with h | h
  · simp [handleDragEnd, h]
  · cases hov : ev.over with
    | none => simp [handleDragEnd, hov]
    | some S => simp [handleDragEnd, hov, h]

/-- Witness for C10: dragging an id absent from the cache changes nothing
and issues no call. -/
theorem handleDragEnd_missing_noop_witness :
    handleDragEnd ⟨[⟨"t1", "p1", "Title", "Desc", "To-Do", "Low"⟩], none, false, none⟩
        ⟨"ghost", some "Done"⟩ true none =
      ⟨none, none, none, [],
        ⟨[⟨"t1", "p1", "Title", "Desc", "To-Do", "Low"⟩], none, false, none⟩⟩ :=
  handleDragEnd_missing_noop
    ⟨[⟨"t1", "p1", "Title", "Desc", "To-Do", "Low"⟩], none, false, none⟩
    ⟨"ghost", some "Done"⟩ true none (Or.inr (by decide))

end IntelliTask
